import Mathlib

/-!
# Verification of the AI command-line console (AICommandLine component)

This file is a shallow embedding, in Lean 4, of the input pipeline and session
state machine of the repository's terminal-like SQL console:

* the rule tables `dangerousCommands`, `vietnameseToSQL`, `sqlCorrections`;
* the pure helpers `isCommandComplete`, `convertVietnameseToSQL`,
  `fixSQLTypos`, `checkDangerousCommand`;
* the dispatcher `executeCommand` (modelled as a state-transition function
  emitting transcript entries and engine effects), `runSQL`;
* the recall-history update and the ArrowUp/ArrowDown key handling of
  `handleKeyDown`;
* the table renderer `renderTable`.

JavaScript regular expressions are embedded as hand-translated matcher
functions over `List Char`.  Case-insensitive (`/i`) matching is modelled by
ASCII `Char.toLower` folding (the non-ASCII letters occurring in the rule
tables appear only in lower case).  JavaScript `\s` is modelled by the ASCII
whitespace class, `\w` by `[A-Za-z0-9_]`, and `.` by "any character except a
line terminator".  The external SQL engine (`useSQLEngine`) is out of scope
of the console's core; it is kept abstract: `executeCommand` is parameterised
by an oracle `exec : String → SQLResult` used only to format result entries,
and every call into the engine is recorded as an explicit `Effect`, so that
theorems about the underlying store quantify over an arbitrary engine.
-/

namespace AICommandLine

/-! ## Character classes (JavaScript regex classes) -/

/-- JavaScript `\s` (the whitespace characters that occur in practice:
space, tab, newline, carriage return, vertical tab, form feed). -/
def wsChar (c : Char) : Bool :=
  c = ' ' || c = '\t' || c = '\n' || c = '\r' || c = '\x0b' || c = '\x0c'

/-- JavaScript `\w`, i.e. `[A-Za-z0-9_]` (ASCII letters, digits, underscore). -/
def wordChar (c : Char) : Bool :=
  c.isAlpha || c.isDigit || c = '_'

/-- JavaScript `.` (without the `s` flag): any character but a line
terminator. -/
def dotChar (c : Char) : Bool :=
  !(c = '\n' || c = '\r')

/-! ## JavaScript string primitives

`String.prototype.trim`, `.toLowerCase`, `.startsWith`, `.endsWith`,
modelled explicitly over the character list (ASCII case folding). -/

/-- JavaScript `s.trim()`. -/
def jsTrim (s : String) : String :=
  String.mk (((s.toList.dropWhile wsChar).reverse.dropWhile wsChar).reverse)

/-- JavaScript `s.toLowerCase()` (ASCII folding). -/
def lowerStr (s : String) : String :=
  String.mk (s.toList.map Char.toLower)

/-- JavaScript `s.startsWith(pre)`. -/
def startsWithStr (s pre : String) : Bool :=
  pre.toList.isPrefixOf s.toList

/-- JavaScript `s.endsWith(suf)`. -/
def endsWithStr (s suf : String) : Bool :=
  suf.toList.isSuffixOf s.toList

/-! ## Small matcher combinators over `List Char`

A matcher consumes a prefix of the input and returns the rest (`Option`),
mirroring how the source's regular expressions walk the input. -/

/-- Strip a literal (given in lower case), comparing case-insensitively
(ASCII folding), returning the rest of the input. -/
def stripLit (pat : String) (l : List Char) : Option (List Char) :=
  go pat.toList l
where
  go : List Char → List Char → Option (List Char)
    | [], l => some l
    | _ :: _, [] => none
    | p :: ps, c :: cs => if c.toLower = p then go ps cs else none

/-- Matcher for `\s+`: require at least one whitespace character, then consume the
maximal whitespace run. -/
def ws1 : List Char → Option (List Char)
  | [] => none
  | c :: cs => if wsChar c then some (cs.dropWhile wsChar) else none

/-- An optional group `(?: … )?` with backtracking: first try to consume
`pre` and continue with `k`; if either fails, continue with `k` on the
unconsumed input (exactly the greedy-then-backtrack behaviour of a
JavaScript optional group). -/
def tryOpt (pre : List Char → Option (List Char))
    (k : List Char → Option α) (l : List Char) : Option α :=
  match pre l with
  | some l₁ =>
    match k l₁ with
    | some r => some r
    | none => k l
  | none => k l

/-- A capturing `(\w+)`: the maximal nonempty word-character run, returned
as a capture (as a `String` slice of the original input). -/
def captureWord (k : String → List Char → Option α) (l : List Char) : Option α :=
  let w := l.takeWhile wordChar
  if w.isEmpty then none else k (String.mk w) (l.drop w.length)

/-- The first `some` produced by `f` along a list. -/
def firstSome (f : α → Option β) : List α → Option β
  | [] => none
  | a :: as =>
    match f a with
    | some b => some b
    | none => firstSome f as

/-- Unanchored search: try the matcher at every start position, leftmost
match first (the behaviour of `RegExp.test` / `String.match` without `^`). -/
def searchPos (m : List Char → Option α) (l : List Char) : Option α :=
  match m l with
  | some r => some r
  | none =>
    match l with
    | [] => none
    | _ :: rest => searchPos m rest

/-- A greedy capturing `(.+)` followed by the continuation `k`: candidates
are the nonempty prefixes of the maximal `.`-run, longest first; the first
candidate on which the continuation succeeds wins (JavaScript greedy
backtracking). -/
def greedyDot (k : String → List Char → Option α) (l : List Char) : Option α :=
  let run := l.takeWhile dotChar
  let rest := l.drop run.length
  firstSome
    (fun i =>
      let n := run.length - i
      if n = 0 then none
      else k (String.mk (run.take n)) (run.drop n ++ rest))
    (List.range run.length)

/-! ## Vietnamese → SQL translation rules (`vietnameseToSQL`)

Each source regex is embedded as an anchored matcher (`…At`, tried at one
position) that returns the list of captured groups; the rule itself searches
at every position (the source patterns are unanchored). -/

/-- Pattern `/lấy\s+tất\s+cả\s+(?:từ\s+)?(?:bảng\s+)?(\w+)/i` -/
def layAt (l : List Char) : Option (List String) :=
  (stripLit "lấy" l).bind fun l => (ws1 l).bind fun l =>
  (stripLit "tất" l).bind fun l => (ws1 l).bind fun l =>
  (stripLit "cả" l).bind fun l => (ws1 l).bind fun l =>
  tryOpt (fun l => (stripLit "từ" l).bind ws1)
    (tryOpt (fun l => (stripLit "bảng" l).bind ws1)
      (captureWord fun w _ => some [w])) l

/-- Pattern `/đếm\s+(?:số\s+)?(?:lượng\s+)?(?:trong\s+)?(?:bảng\s+)?(\w+)/i` -/
def demAt (l : List Char) : Option (List String) :=
  (stripLit "đếm" l).bind fun l => (ws1 l).bind fun l =>
  tryOpt (fun l => (stripLit "số" l).bind ws1)
    (tryOpt (fun l => (stripLit "lượng" l).bind ws1)
      (tryOpt (fun l => (stripLit "trong" l).bind ws1)
        (tryOpt (fun l => (stripLit "bảng" l).bind ws1)
          (captureWord fun w _ => some [w])))) l

/-- Pattern `/xem\s+(?:bảng\s+)?(\w+)/i` -/
def xemAt (l : List Char) : Option (List String) :=
  (stripLit "xem" l).bind fun l => (ws1 l).bind fun l =>
  tryOpt (fun l => (stripLit "bảng" l).bind ws1)
    (captureWord fun w _ => some [w]) l

/-- Pattern `/hiển\s+thị\s+(?:tất\s+cả\s+)?(?:bảng\s+)?(\w+)/i` -/
def hienThiAt (l : List Char) : Option (List String) :=
  (stripLit "hiển" l).bind fun l => (ws1 l).bind fun l =>
  (stripLit "thị" l).bind fun l => (ws1 l).bind fun l =>
  tryOpt (fun l =>
      (stripLit "tất" l).bind fun l => (ws1 l).bind fun l =>
      (stripLit "cả" l).bind ws1)
    (tryOpt (fun l => (stripLit "bảng" l).bind ws1)
      (captureWord fun w _ => some [w])) l

/-- The ordered alternation `(?:với|có|where)`. -/
def altVoiCoWhere (l : List Char) : Option (List Char) :=
  match stripLit "với" l with
  | some r => some r
  | none =>
    match stripLit "có" l with
    | some r => some r
    | none => stripLit "where" l

/-- Pattern `/tìm\s+(.+)\s+trong\s+(\w+)\s+(?:với|có|where)\s+(.+)/i` -/
def timAt (l : List Char) : Option (List String) :=
  (stripLit "tìm" l).bind fun l => (ws1 l).bind fun l =>
  greedyDot (fun c₁ l =>
    (ws1 l).bind fun l => (stripLit "trong" l).bind fun l => (ws1 l).bind fun l =>
    captureWord (fun c₂ l =>
      (ws1 l).bind fun l => (altVoiCoWhere l).bind fun l => (ws1 l).bind fun l =>
      greedyDot (fun c₃ _ => some [c₁, c₂, c₃]) l) l) l

/-- Pattern `/sắp\s+xếp\s+(\w+)\s+theo\s+(\w+)\s+(?:tăng|tăng\s+dần)/i`
(the ordered alternation always takes the bare first branch when it
matches, and both branches begin with the same literal). -/
def sapXepTangAt (l : List Char) : Option (List String) :=
  (stripLit "sắp" l).bind fun l => (ws1 l).bind fun l =>
  (stripLit "xếp" l).bind fun l => (ws1 l).bind fun l =>
  captureWord (fun c₁ l =>
    (ws1 l).bind fun l => (stripLit "theo" l).bind fun l => (ws1 l).bind fun l =>
    captureWord (fun c₂ l =>
      (ws1 l).bind fun l =>
      (stripLit "tăng" l).map fun _ => [c₁, c₂]) l) l

/-- Pattern `/sắp\s+xếp\s+(\w+)\s+theo\s+(\w+)\s+(?:giảm|giảm\s+dần)/i` -/
def sapXepGiamAt (l : List Char) : Option (List String) :=
  (stripLit "sắp" l).bind fun l => (ws1 l).bind fun l =>
  (stripLit "xếp" l).bind fun l => (ws1 l).bind fun l =>
  captureWord (fun c₁ l =>
    (ws1 l).bind fun l => (stripLit "theo" l).bind fun l => (ws1 l).bind fun l =>
    captureWord (fun c₂ l =>
      (ws1 l).bind fun l =>
      (stripLit "giảm" l).map fun _ => [c₁, c₂]) l) l

/-- Pattern `/thêm\s+(.+)\s+vào\s+(\w+)/i` -/
def themAt (l : List Char) : Option (List String) :=
  (stripLit "thêm" l).bind fun l => (ws1 l).bind fun l =>
  greedyDot (fun c₁ l =>
    (ws1 l).bind fun l => (stripLit "vào" l).bind fun l => (ws1 l).bind fun l =>
    captureWord (fun c₂ _ => some [c₁, c₂]) l) l

/-- Pattern `/xóa\s+(?:từ\s+)?(\w+)\s+(?:với|có|where)\s+(.+)/i` -/
def xoaAt (l : List Char) : Option (List String) :=
  (stripLit "xóa" l).bind fun l => (ws1 l).bind fun l =>
  tryOpt (fun l => (stripLit "từ" l).bind ws1)
    (captureWord fun c₁ l =>
      (ws1 l).bind fun l => (altVoiCoWhere l).bind fun l => (ws1 l).bind fun l =>
      greedyDot (fun c₂ _ => some [c₁, c₂]) l) l

/-- One entry of the `vietnameseToSQL` mapping table:
an (unanchored) pattern matcher returning the captured groups, and the SQL
template with positional `$i` placeholders. -/
structure VNRule where
  matchRule : String → Option (List String)
  template : String

/-- The `vietnameseToSQL` rule table, in declared order. -/
def vietnameseToSQL : List VNRule :=
  [ ⟨fun s => searchPos layAt s.toList, "SELECT * FROM $1"⟩,
    ⟨fun s => searchPos demAt s.toList, "SELECT COUNT(*) FROM $1"⟩,
    ⟨fun s => searchPos xemAt s.toList, "SELECT * FROM $1"⟩,
    ⟨fun s => searchPos hienThiAt s.toList, "SELECT * FROM $1"⟩,
    ⟨fun s => searchPos timAt s.toList, "SELECT $1 FROM $2 WHERE $3"⟩,
    ⟨fun s => searchPos sapXepTangAt s.toList, "SELECT * FROM $1 ORDER BY $2 ASC"⟩,
    ⟨fun s => searchPos sapXepGiamAt s.toList, "SELECT * FROM $1 ORDER BY $2 DESC"⟩,
    ⟨fun s => searchPos themAt s.toList, "INSERT INTO $2 VALUES ($1)"⟩,
    ⟨fun s => searchPos xoaAt s.toList, "DELETE FROM $1 WHERE $2"⟩ ]

/-! ## Template substitution (`convertVietnameseToSQL`) -/

/-- JavaScript `String.prototype.replace` with a plain-string pattern: replace the
first (leftmost) occurrence only.  The replacement is inserted literally;
JavaScript's `$`-escape expansion inside replacement strings is not
modelled (the source's replacement values are capture texts). -/
def listReplaceFirst (pat rep : List Char) : List Char → List Char
  | [] => []
  | c :: cs =>
    if pat.isPrefixOf (c :: cs) then rep ++ (c :: cs).drop pat.length
    else c :: listReplaceFirst pat rep cs

/-- String-level first-occurrence replacement. -/
def replaceFirst (s pat rep : String) : String :=
  String.mk (listReplaceFirst pat.toList rep.toList s.toList)

/-- The loop `for (let i = 1; i < match.length; i++) sql = sql.replace('$'+i, match[i])`. -/
def substTemplate (template : String) (caps : List String) : String :=
  (List.range caps.length).foldl
    (fun sql i => replaceFirst sql ("$" ++ toString (i + 1)) (caps.getD i ""))
    template

/-- Function `convertVietnameseToSQL`: first matching rule (in declared order) has its
captures substituted into its template, with `';'` appended; `none` when no
rule matches. -/
def convertVietnameseToSQL (text : String) : Option String :=
  firstSome
    (fun r => (r.matchRule text).map fun m => substTemplate r.template m ++ ";")
    vietnameseToSQL

/-! ## Statement completeness (`isCommandComplete`) -/

/-- The bare commands that never need a `';'` terminator. -/
def specialCommands : List String :=
  ["help", "clear", "reset", "tables", "yes", "no", "y", "n",
   "ai on", "ai off", "learn on", "learn off"]

/-- Function `isCommandComplete`: special commands and `desc`/`describe` prefixes are
complete as-is; a statement matching a Vietnamese rule is complete; anything
else is complete exactly when its trimmed text ends with `';'`. -/
def isCommandComplete (text : String) : Bool :=
  let trimmed := jsTrim text
  let lowerTrimmed := lowerStr trimmed
  if specialCommands.any (fun cmd => lowerTrimmed = cmd) then true
  else if startsWithStr lowerTrimmed "desc " || startsWithStr lowerTrimmed "describe " then true
  else if vietnameseToSQL.any (fun r => (r.matchRule trimmed).isSome) then true
  else endsWithStr trimmed ";"

/-! ## SQL typo corrections (`sqlCorrections`, `fixSQLTypos`)

Each correction's regex is embedded as an anchored matcher returning the
number of characters consumed by a match starting at the head of the input
(always positive).  `test` is modelled by searching at every position and
`replace` (global flag) by the left-to-right scan that restarts after each
match. -/

/-- A case-insensitive literal pattern at the head of the input. -/
def litAt (pat : String) (l : List Char) : Option Nat :=
  (stripLit pat l).map fun _ => pat.length

/-- A pattern `LIT1\s+LIT2` at the head of the input. -/
def litWsLitAt (p₁ p₂ : String) (l : List Char) : Option Nat :=
  match stripLit p₁ l with
  | none => none
  | some l₁ =>
    let wsRun := l₁.takeWhile wsChar
    if wsRun.isEmpty then none
    else
      match stripLit p₂ (l₁.drop wsRun.length) with
      | none => none
      | some _ => some (p₁.length + wsRun.length + p₂.length)

/-- Pattern `/WHER(?!E)/i` at the head of the input: the literal `WHER` not followed
by an `E` (the lookahead consumes nothing, so a match is 4 characters). -/
def wherAt (l : List Char) : Option Nat :=
  match stripLit "wher" l with
  | none => none
  | some [] => some 4
  | some (c :: _) => if c.toLower = 'e' then none else some 4

/-- One entry of the `sqlCorrections` table. -/
structure Correction where
  matchAt : List Char → Option Nat
  fix : String
  message : String

/-- The `sqlCorrections` table, in declared order. -/
def sqlCorrections : List Correction :=
  [ ⟨litAt "slect", "SELECT", "Sửa lỗi: SLECT → SELECT"⟩,
    ⟨litAt "form", "FROM", "Sửa lỗi: FORM → FROM"⟩,
    ⟨wherAt, "WHERE", "Sửa lỗi: WHER → WHERE"⟩,
    ⟨litWsLitAt "oder" "by", "ORDER BY", "Sửa lỗi: ODER BY → ORDER BY"⟩,
    ⟨litWsLitAt "gruop" "by", "GROUP BY", "Sửa lỗi: GRUOP BY → GROUP BY"⟩,
    ⟨litAt "delte", "DELETE", "Sửa lỗi: DELTE → DELETE"⟩,
    ⟨litAt "udpate", "UPDATE", "Sửa lỗi: UDPATE → UPDATE"⟩,
    ⟨litAt "inset", "INSERT", "Sửa lỗi: INSET → INSERT"⟩,
    ⟨litAt "valeus", "VALUES", "Sửa lỗi: VALEUS → VALUES"⟩,
    ⟨litAt "jion", "JOIN", "Sửa lỗi: JION → JOIN"⟩ ]

/-- JavaScript `pattern.test(text)`: does the pattern match at some position? -/
def containsPat (m : List Char → Option Nat) (l : List Char) : Bool :=
  (searchPos m l).isSome

/-- JavaScript `text.replace(pattern, fix)` with the global flag: left-to-right scan,
each match replaced by `fix`, resuming after the matched characters.  The
`fuel` argument only forces structural recursion: every step consumes at
least one character, so with `fuel = l.length` (as in `globalReplace`) the
`0` case is never reached. -/
def globalReplaceFuel (m : List Char → Option Nat) (fix : List Char) :
    Nat → List Char → List Char
  | _, [] => []
  | 0, l => l
  | fuel + 1, c :: cs =>
    match m (c :: cs) with
    | some n => fix ++ globalReplaceFuel m fix fuel (cs.drop (n - 1))
    | none => c :: globalReplaceFuel m fix fuel cs

/-- JavaScript `text.replace(pattern, fix)` with the global flag. -/
def globalReplace (m : List Char → Option Nat) (fix : List Char)
    (l : List Char) : List Char :=
  globalReplaceFuel m fix l.length l

/-- Function `fixSQLTypos`: fold over the correction table; every correction whose
pattern occurs anywhere has all its occurrences replaced and its message
appended. -/
def fixSQLTypos (sql : String) : String × List String :=
  sqlCorrections.foldl
    (fun acc corr =>
      if containsPat corr.matchAt acc.1.toList then
        (String.mk (globalReplace corr.matchAt corr.fix.toList acc.1.toList),
         acc.2 ++ [corr.message])
      else acc)
    (sql, [])

/-! ## Dangerous-command classification (`dangerousCommands`,
`checkDangerousCommand`) -/

/-- Severity of a dangerous command. -/
inductive DangerLevel
  | high
  | medium
deriving DecidableEq, Repr

/-- One entry of the `dangerousCommands` table. -/
structure DangerousCommand where
  matchPat : String → Bool
  warning : String
  level : DangerLevel

/-- Pattern `/^DROP\s+TABLE\s+/i` -/
def matchDropTable (s : String) : Bool :=
  ((stripLit "drop" s.toList).bind fun l => (ws1 l).bind fun l =>
    (stripLit "table" l).bind ws1).isSome

/-- Pattern `/^DROP\s+DATABASE\s+/i` -/
def matchDropDatabase (s : String) : Bool :=
  ((stripLit "drop" s.toList).bind fun l => (ws1 l).bind fun l =>
    (stripLit "database" l).bind ws1).isSome

/-- Pattern `/^DELETE\s+FROM\s+\w+\s*;?\s*$/i` -/
def matchDeleteAll (s : String) : Bool :=
  match (stripLit "delete" s.toList).bind fun l => (ws1 l).bind fun l =>
        (stripLit "from" l).bind ws1 with
  | none => false
  | some l =>
    let w := l.takeWhile wordChar
    if w.isEmpty then false
    else
      let l₁ := (l.drop w.length).dropWhile wsChar
      let l₂ := match l₁ with
        | ';' :: rest => rest
        | _ => l₁
      (l₂.dropWhile wsChar).isEmpty

/-- Pattern `/^TRUNCATE\s+/i` -/
def matchTruncate (s : String) : Bool :=
  ((stripLit "truncate" s.toList).bind ws1).isSome

/-- Pattern `/^UPDATE\s+\w+\s+SET\s+[^W]*$/i` -/
def matchUpdateNoWhere (s : String) : Bool :=
  match (stripLit "update" s.toList).bind ws1 with
  | none => false
  | some l =>
    let w := l.takeWhile wordChar
    if w.isEmpty then false
    else
      match (ws1 (l.drop w.length)).bind fun l => (stripLit "set" l).bind ws1 with
      | none => false
      | some l => l.all fun c => c.toLower ≠ 'w'

/-- The `dangerousCommands` table, in declared order. -/
def dangerousCommands : List DangerousCommand :=
  [ ⟨matchDropTable, "⚠️ NGUY HIỂM: Lệnh này sẽ XÓA VĨNH VIỄN bảng và tất cả dữ liệu!", .high⟩,
    ⟨matchDropDatabase, "🚨 CỰC KỲ NGUY HIỂM: Lệnh này sẽ XÓA TOÀN BỘ DATABASE!", .high⟩,
    ⟨matchDeleteAll, "⚠️ CẢNH BÁO: DELETE không có WHERE sẽ xóa TẤT CẢ dữ liệu!", .high⟩,
    ⟨matchTruncate, "⚠️ CẢNH BÁO: TRUNCATE sẽ xóa toàn bộ dữ liệu trong bảng!", .high⟩,
    ⟨matchUpdateNoWhere, "⚠️ CẢNH BÁO: UPDATE không có WHERE sẽ cập nhật TẤT CẢ hàng!", .medium⟩ ]

/-- Function `checkDangerousCommand`: the first (declared-order) dangerous rule whose
pattern matches the trimmed statement. -/
def checkDangerousCommand (sql : String) : Option DangerousCommand :=
  dangerousCommands.find? fun d => d.matchPat (jsTrim sql)

/-! ## Data model: transcript entries, results, effects, console state -/

/-- A result cell: `string | number | null`. -/
inductive Cell
  | str (s : String)
  | num (n : Int)
  | null
deriving DecidableEq, Repr

/-- JavaScript `String(cell ?? 'NULL')`: a missing (`null`/out-of-range)
cell renders as the literal token `NULL`. -/
def cellStr : Cell → String
  | .str s => s
  | .num n => toString n
  | .null => "NULL"

/-- An attached result table of a transcript entry. -/
structure Table where
  columns : List String
  rows : List (List Cell)
deriving DecidableEq, Repr

/-- The discriminating tag of a `CommandEntry`. -/
inductive EntryType
  | input
  | continuation
  | result
  | error
  | warning
  | info
  | ai
deriving DecidableEq, Repr

/-- One transcript entry (`CommandEntry`; the monotonic id and timestamp are
bookkeeping the claims do not touch and are omitted). -/
structure Entry where
  type : EntryType
  content : String
  table : Option Table := none
deriving DecidableEq, Repr

/-- The result shape returned by the external engine's `executeSQL`. -/
structure SQLResult where
  columns : List String
  rows : List (List Cell)
  error : Option String := none
  affectedRows : Option Nat := none
  executionTime : Nat := 0
deriving DecidableEq, Repr

/-- A call into the external SQL engine. -/
inductive Effect
  | execute (sql : String)
  | resetDB
deriving DecidableEq, Repr

/-- The console's mutable session state (the `useState` fields of the
component that the dispatcher touches). -/
structure ConsoleState where
  commandHistory : List String
  historyIndex : Int
  aiEnabled : Bool
  learningMode : Bool
  pendingDangerousCommand : Option String
  transcript : List Entry
deriving DecidableEq, Repr

/-- The initial session state (`useState` defaults). -/
def initialState : ConsoleState :=
  { commandHistory := []
    historyIndex := -1
    aiEnabled := true
    learningMode := true
    pendingDangerousCommand := none
    transcript := [] }

/-- The AI helper functions of the component (`explainSQL`, `getErrorHelp`,
`getOptimizationTips`).  They are pure text producers whose output is only
ever wrapped into assistant-note (`ai`) entries, and no verified claim
inspects that text, so the dispatcher is parameterised over them and every
theorem below quantifies over arbitrary helpers. -/
structure AIHelpers where
  explainSQL : String → String
  getErrorHelp : String → Option String
  getOptimizationTips : String → List String

/-- Result of one dispatcher step: the new state, the transcript entries
appended by this step, and the engine calls it made. -/
structure StepResult where
  state : ConsoleState
  emitted : List Entry
  effects : List Effect

/-! ## `runSQL`: execute one statement and render its result -/

/-- The transcript entries `runSQL` appends for a given engine result. -/
def runSQLEntries (h : AIHelpers) (aiEnabled learningMode : Bool)
    (sql : String) (result : SQLResult) : List Entry :=
  match result.error with
  | some err =>
    ⟨.error, "ERROR: " ++ err, none⟩ ::
    (if aiEnabled then
      match h.getErrorHelp err with
      | some help => [⟨.ai, help, none⟩]
      | none => []
     else [])
  | none =>
    (if aiEnabled then
      let explanation := h.explainSQL sql
      if explanation ≠ "" then [⟨.ai, "📝 Giải thích:\n" ++ explanation, none⟩]
      else []
     else []) ++
    (if result.columns.length > 0 && result.rows.length > 0 then
      [⟨.result,
        toString result.rows.length ++ " row(s) in set (" ++
          toString result.executionTime ++ "ms)",
        some ⟨result.columns, result.rows⟩⟩]
     else
      [⟨.info,
        "Query OK, " ++ toString (result.affectedRows.getD 0) ++
          " row(s) affected (" ++ toString result.executionTime ++ "ms)",
        none⟩]) ++
    (if learningMode && aiEnabled then
      let tips := h.getOptimizationTips sql
      if tips.length > 0 then
        [⟨.ai, "📚 Gợi ý tối ưu:\n" ++ String.intercalate "\n" tips, none⟩]
      else []
     else [])

/-! ## `executeCommand`: the command dispatcher -/

/-- The recall-history update performed at the top of `executeCommand`:
`[fullSQL, ...prev.filter(c => c !== fullSQL)].slice(0, 50)`. -/
def pushHistory (fullSQL : String) (prev : List String) : List String :=
  (fullSQL :: prev.filter fun c => c ≠ fullSQL).take 50

/-- A horizontal rule: `n` copies of the box-drawing character `c` (the
source writes these runs literally inside its template strings). -/
def ruleOf (c : Char) (n : Nat) : String := String.mk (List.replicate n c)

/-- The static help text of the `help` command. -/
def helpText : String :=
  "
📚 HƯỚNG DẪN SỬ DỤNG (GIỐNG MYSQL CLI):
" ++ ruleOf '═' 59 ++ "

⌨️  CÁCH NHẬP LỆNH:
" ++ ruleOf '─' 60 ++ "
  • Enter        = Xuống dòng (tiếp tục nhập)
  • Kết thúc ;   = Thực thi lệnh tự động
  • Ctrl+Enter   = Thực thi ngay (không cần ;)
  • ↑ / ↓        = Duyệt lịch sử lệnh
  • Ctrl+L       = Xóa màn hình
  • Ctrl+C       = Hủy lệnh đang nhập

📋 LỆNH HỆ THỐNG:
" ++ ruleOf '─' 60 ++ "
  help          - Hiển thị hướng dẫn này
  clear         - Xóa màn hình terminal
  reset         - Khôi phục database về ban đầu
  tables        - Xem danh sách các bảng
  desc <table>  - Xem cấu trúc bảng
  ai on/off     - Bật/tắt AI hỗ trợ
  learn on/off  - Bật/tắt chế độ học tập

🗣️  GÕ TIẾNG VIỆT (AI tự chuyển sang SQL):
" ++ ruleOf '─' 60 ++ "
  \"lấy tất cả từ students\"
  \"đếm số lượng trong products\"
  \"sắp xếp employees theo salary giảm dần\"

📝 VÍ DỤ SQL NHIỀU DÒNG:
" ++ ruleOf '─' 60 ++ "
  mysql> CREATE TABLE users (
      ->   id INT PRIMARY KEY,
      ->   name VARCHAR(100)
      -> );
      "

/-- The static table listing of the `tables` command. -/
def tablesText : String :=
  "
📊 DANH SÁCH BẢNG:
" ++ ruleOf '─' 40 ++ "
  • students   (id, name, age, grade, class)
  • products   (id, name, price, category, stock)
  • orders     (id, customer_name, product_id, quantity, order_date)
  • employees  (id, name, department, salary, hire_date)
      "

/-- The fixed schema table of the `desc` command (`tableInfo`). -/
def tableInfo : List (String × List String) :=
  [ ("students",
      ["id INT PRIMARY KEY", "name VARCHAR(100)", "age INT",
       "grade VARCHAR(10)", "class VARCHAR(20)"]),
    ("products",
      ["id INT PRIMARY KEY", "name VARCHAR(100)", "price INT",
       "category VARCHAR(50)", "stock INT"]),
    ("orders",
      ["id INT PRIMARY KEY", "customer_name VARCHAR(100)", "product_id INT",
       "quantity INT", "order_date DATE"]),
    ("employees",
      ["id INT PRIMARY KEY", "name VARCHAR(100)", "department VARCHAR(50)",
       "salary INT", "hire_date DATE"]) ]

/-- JavaScript `trimmedSQL.split(/\s+/)[1]` for a trimmed string: the second
whitespace-separated token, when present. -/
def secondToken (s : String) : Option String :=
  let rest := ((s.toList.dropWhile fun c => !wsChar c).dropWhile wsChar)
  if rest.isEmpty then none
  else some (String.mk (rest.takeWhile fun c => !wsChar c))

/-- Finish a dispatcher step by appending entries and recording effects. -/
def emitStep (st : ConsoleState) (es : List Entry) (effs : List Effect) :
    StepResult :=
  { state := { st with transcript := st.transcript ++ es }
    emitted := es
    effects := effs }

/-- The `desc <table>` / `describe <table>` branch of `executeCommand`. -/
def descStep (st : ConsoleState) (trimmedSQL : String) : StepResult :=
  let tableName := (secondToken trimmedSQL).map fun t => replaceFirst t ";" ""
  match tableName with
  | some t =>
    match tableInfo.find? (fun p => p.1 = lowerStr t) with
    | some p =>
      emitStep st
        [⟨.info,
          "\n📋 Cấu trúc bảng: " ++ t ++
            "\n" ++ ruleOf '─' 40 ++ "\n" ++
            String.intercalate "\n" (p.2.map fun col => "  " ++ col) ++
            "\n        ", none⟩] []
    | none =>
      emitStep st [⟨.error, "❌ Bảng \"" ++ t ++ "\" không tồn tại!", none⟩] []
  | none =>
    emitStep st [⟨.error, "❌ Bảng \"undefined\" không tồn tại!", none⟩] []

/-- The "Process SQL command" tail of `executeCommand` (lines following the
special-command and confirmation handling): Vietnamese translation, typo
fixing and danger classification when AI assist is on, then `runSQL`. -/
def processSQL (h : AIHelpers) (exec : String → SQLResult)
    (st : ConsoleState) (trimmedSQL : String) : StepResult :=
  if st.aiEnabled then
    let (sql₁, entries₁) :=
      match convertVietnameseToSQL trimmedSQL with
      | some conv =>
        (conv, [(⟨.ai, "🔄 Chuyển đổi tiếng Việt → SQL:\n   " ++ conv, none⟩ : Entry)])
      | none => (trimmedSQL, [])
    let fixRes := fixSQLTypos sql₁
    let (sql₂, entries₂) :=
      if fixRes.2.length > 0 then
        (fixRes.1,
         [(⟨.ai,
            "✏️ Sửa lỗi:\n" ++
              String.intercalate "\n" (fixRes.2.map fun c => "   • " ++ c) ++
              "\n   → " ++ fixRes.1, none⟩ : Entry)])
      else (sql₁, [])
    match checkDangerousCommand sql₂ with
    | some dangerous =>
      if dangerous.level = .high then
        emitStep { st with pendingDangerousCommand := some sql₂ }
          (entries₁ ++ entries₂ ++
            [⟨.warning, dangerous.warning, none⟩,
             ⟨.warning, "⚡ Gõ \"yes\" để xác nhận thực thi hoặc \"no\" để hủy", none⟩])
          []
      else
        emitStep st
          (entries₁ ++ entries₂ ++ [⟨.warning, dangerous.warning, none⟩] ++
            runSQLEntries h st.aiEnabled st.learningMode sql₂ (exec sql₂))
          [.execute sql₂]
    | none =>
      emitStep st
        (entries₁ ++ entries₂ ++
          runSQLEntries h st.aiEnabled st.learningMode sql₂ (exec sql₂))
        [.execute sql₂]
  else
    emitStep st
      (runSQLEntries h st.aiEnabled st.learningMode trimmedSQL (exec trimmedSQL))
      [.execute trimmedSQL]

/-- The dispatcher `executeCommand`, as one state-transition step.  The
`exec` oracle stands for the engine's `executeSQL` and is consulted only to
format result entries; the engine calls themselves are recorded in
`effects`. -/
def executeCommand (h : AIHelpers) (exec : String → SQLResult)
    (st₀ : ConsoleState) (fullSQL : String) : StepResult :=
  let st := { st₀ with
    commandHistory := pushHistory fullSQL st₀.commandHistory
    historyIndex := -1 }
  let trimmedSQL := jsTrim fullSQL
  let lowerSQL := lowerStr trimmedSQL
  if lowerSQL = "help" then
    emitStep st [⟨.info, helpText, none⟩] []
  else if lowerSQL = "clear" then
    { state := { st with transcript := [] }, emitted := [], effects := [] }
  else if lowerSQL = "reset" then
    emitStep st
      [⟨.info, "✅ Database đã được khôi phục về trạng thái ban đầu!", none⟩]
      [.resetDB]
  else if lowerSQL = "tables" then
    emitStep st [⟨.info, tablesText, none⟩] []
  else if startsWithStr lowerSQL "desc " || startsWithStr lowerSQL "describe " then
    descStep st trimmedSQL
  else if lowerSQL = "ai on" then
    emitStep { st with aiEnabled := true }
      [⟨.info, "🤖 AI hỗ trợ đã được BẬT", none⟩] []
  else if lowerSQL = "ai off" then
    emitStep { st with aiEnabled := false }
      [⟨.info, "🤖 AI hỗ trợ đã được TẮT", none⟩] []
  else if lowerSQL = "learn on" then
    emitStep { st with learningMode := true }
      [⟨.info, "📚 Chế độ học tập đã được BẬT - Sẽ hiển thị gợi ý tối ưu", none⟩] []
  else if lowerSQL = "learn off" then
    emitStep { st with learningMode := false }
      [⟨.info, "📚 Chế độ học tập đã được TẮT", none⟩] []
  else
    match st.pendingDangerousCommand with
    | some cmd =>
      if lowerSQL = "yes" || lowerSQL = "y" then
        let st₁ := { st with pendingDangerousCommand := none }
        emitStep st₁
          (runSQLEntries h st₁.aiEnabled st₁.learningMode cmd (exec cmd))
          [.execute cmd]
      else if lowerSQL = "no" || lowerSQL = "n" then
        emitStep { st with pendingDangerousCommand := none }
          [⟨.info, "❌ Đã hủy lệnh.", none⟩] []
      else
        processSQL h exec st trimmedSQL
    | none =>
      processSQL h exec st trimmedSQL

/-! ## The engine as an abstract store

The claims about the underlying data store only need that the store evolves
exclusively through the recorded engine calls; the engine itself
(`useSQLEngine`) is an external collaborator.  `applyEffects` folds a step's
effects over an arbitrary engine model. -/

/-- An abstract model of the external SQL engine: a store type, the effect
of executing one statement, and the reset store. -/
structure EngineModel (σ : Type) where
  execStore : σ → String → σ
  resetStore : σ

/-- Fold the effects of a dispatcher step over the abstract store. -/
def applyEffects (eng : EngineModel σ) (store : σ) : List Effect → σ
  | [] => store
  | .execute sql :: rest => applyEffects eng (eng.execStore store sql) rest
  | .resetDB :: rest => applyEffects eng eng.resetStore rest

/-! ## Recall navigation (`handleKeyDown`, ArrowUp / ArrowDown branches) -/

/-- The component state touched by the ArrowUp/ArrowDown branches of
`handleKeyDown`. -/
structure KeyState where
  buffer : List String
  currentLine : String
  commandHistory : List String
  historyIndex : Int
deriving DecidableEq, Repr

/-- The ArrowUp ("previous command") branch of `handleKeyDown`.  It acts
only when `buffer.length === 0 && currentLine === ''`; otherwise the event
falls through every branch and the state is unchanged. -/
def arrowUp (s : KeyState) : KeyState :=
  if s.buffer = [] ∧ s.currentLine = "" then
    if s.historyIndex < (s.commandHistory.length : Int) - 1 then
      let newIndex := s.historyIndex + 1
      { s with
        historyIndex := newIndex
        currentLine := s.commandHistory.getD newIndex.toNat "" }
    else s
  else s

/-- The ArrowDown ("next command") branch of `handleKeyDown`.  It acts
whenever `buffer.length === 0`. -/
def arrowDown (s : KeyState) : KeyState :=
  if s.buffer = [] then
    if s.historyIndex > 0 then
      let newIndex := s.historyIndex - 1
      { s with
        historyIndex := newIndex
        currentLine := s.commandHistory.getD newIndex.toNat "" }
    else if s.historyIndex = 0 then
      { s with historyIndex := -1, currentLine := "" }
    else s
  else s

/-! ## The table renderer (`renderTable`) -/

/-- JavaScript `s.padEnd(w)`: pad with spaces up to width `w`; strings at
least that long are unchanged. -/
def padEnd (s : String) (w : Nat) : String :=
  s ++ String.mk (List.replicate (w - s.length) ' ')

/-- Per-column widths:
`Math.max(col.length, Math.max(...rows.map(row => String(row[i] ?? 'NULL').length)), 4)`
computed independently for each column.  (`Math.max()` of no rows is
`-Infinity`; the fold base `0` is equivalent under the outer `max` with the
floor `4`.) -/
def colWidths (t : Table) : List Nat :=
  (List.range t.columns.length).map fun i =>
    max (t.columns.getD i "").length
      (max (t.rows.foldl (fun m row => max m (cellStr (row.getD i .null)).length) 0) 4)

/-- The lines produced by `renderTable`: the `+---+` separator, the header
row, the first 25 data rows, and the overflow marker when more than 25 rows
exist. -/
structure RenderedTable where
  separator : String
  header : String
  rowLines : List String
  more : Option String
deriving DecidableEq, Repr

/-- The renderer `renderTable`. -/
def renderTable (t : Table) : RenderedTable :=
  let ws := colWidths t
  { separator :=
      "+" ++ String.intercalate "+"
        (ws.map fun w => String.mk (List.replicate (w + 2) '-')) ++ "+"
    header :=
      "|" ++ String.intercalate "|"
        ((List.range t.columns.length).map fun i =>
          " " ++ padEnd (t.columns.getD i "") (ws.getD i 0) ++ " ") ++ "|"
    rowLines :=
      (t.rows.take 25).map fun row =>
        "|" ++ String.intercalate "|"
          ((List.range row.length).map fun i =>
            " " ++ padEnd (cellStr (row.getD i .null)) (ws.getD i 0) ++ " ") ++ "|"
    more :=
      if t.rows.length > 25 then
        some ("... và " ++ toString (t.rows.length - 25) ++ " hàng nữa")
      else none }

/-! ## Concrete instances used by closed counterexamples and witnesses -/

/-- A concrete helper bundle (any bundle would do: the verified statements
never depend on the helper texts). -/
def trivialHelpers : AIHelpers :=
  { explainSQL := fun _ => ""
    getErrorHelp := fun _ => none
    getOptimizationTips := fun _ => [] }

/-- A concrete engine oracle returning an empty successful result. -/
def trivialExec : String → SQLResult :=
  fun _ => { columns := [], rows := [] }

/-- Severity of the first matching danger rule is `high`. -/
def isHighDanger (s : String) : Bool :=
  match checkDangerousCommand s with
  | some dc => dc.level = DangerLevel.high
  | none => false

/-! ## Shared helper lemmas -/

/-- A list-fold over the correction table only ever appends messages. -/
theorem fixFold_snd_isPrefix (rules : List Correction) :
    ∀ acc : String × List String,
      acc.2 <+: (rules.foldl
        (fun acc corr =>
          if containsPat corr.matchAt acc.1.toList then
            (String.mk (globalReplace corr.matchAt corr.fix.toList acc.1.toList),
             acc.2 ++ [corr.message])
          else acc) acc).2 := by
  induction rules with
  | nil => intro acc; simp
  | cons r rs ih =>
    intro acc
    simp only [List.foldl_cons]
    by_cases h : containsPat r.matchAt acc.1.toList
    · simp only [h, if_true]
      exact (show acc.2 <+: acc.2 ++ [r.message] from ⟨[r.message], rfl⟩).trans
        (ih (String.mk (globalReplace r.matchAt r.fix.toList acc.1.toList),
          acc.2 ++ [r.message]))
    · simp only [h, if_false]
      exact ih acc

/-- If `fixSQLTypos` reports no corrections, it returned its input text. -/
theorem fixSQLTypos_fst_of_no_corrections (sql : String)
    (h : (fixSQLTypos sql).2 = []) : (fixSQLTypos sql).1 = sql := by
  unfold fixSQLTypos at *
  generalize hrules : sqlCorrections = rules at *
  clear hrules
  induction rules with
  | nil => simp
  | cons r rs ih =>
    simp only [List.foldl_cons] at *
    by_cases hc : containsPat r.matchAt (sql, ([] : List String)).1.toList
    · exfalso
      have hpfx := fixFold_snd_isPrefix rs
        (String.mk (globalReplace r.matchAt r.fix.toList
          (sql, ([] : List String)).1.toList), [] ++ [r.message])
      simp only [hc, if_true] at h
      rw [h] at hpfx
      simp at hpfx
    · simp only [hc, if_false] at h ⊢
      exact ih h

end AICommandLine

namespace AICommandLine

/-! ## The claims -/

set_option maxHeartbeats 2000000 in
set_option maxRecDepth 8000 in
/-- C1.  Confirmation gating: after submitting `DROP TABLE students;` from
the initial state, no engine call is made and the statement is held as the
pending dangerous command; submitting `yes` next is the step that executes
it, while submitting `no` instead makes no engine call, clears the held
statement, and leaves an arbitrary underlying store unchanged, so a
subsequent `SELECT` would run against the pre-drop store. -/
theorem c1_confirmation_gating (h : AIHelpers) (exec : String → SQLResult)
    {σ : Type} (eng : EngineModel σ) (store : σ) :
    (executeCommand h exec initialState "DROP TABLE students;").effects = [] ∧
    (executeCommand h exec initialState "DROP TABLE students;").state.pendingDangerousCommand
      = some "DROP TABLE students;" ∧
    (executeCommand h exec
        (executeCommand h exec initialState "DROP TABLE students;").state
        "yes").effects = [Effect.execute "DROP TABLE students;"] ∧
    (executeCommand h exec
        (executeCommand h exec initialState "DROP TABLE students;").state
        "no").effects = [] ∧
    (executeCommand h exec
        (executeCommand h exec initialState "DROP TABLE students;").state
        "no").state.pendingDangerousCommand = none ∧
    (executeCommand h exec
        (executeCommand h exec initialState "DROP TABLE students;").state
        "no").emitted = [⟨EntryType.info, "❌ Đã hủy lệnh.", none⟩] ∧
    applyEffects eng
      (applyEffects eng store
        (executeCommand h exec initialState "DROP TABLE students;").effects)
      (executeCommand h exec
        (executeCommand h exec initialState "DROP TABLE students;").state
        "no").effects = store :=
  ⟨rfl, rfl, rfl, rfl, rfl, rfl, rfl⟩

/-- C5.  Recall navigation (code bug): after executing statement A and then
statement B, the first ArrowUp with an empty buffer and empty line recalls
B, but a second ArrowUp is a no-op — the guard
`buffer.length === 0 && currentLine === ''` fails because the line now
holds B — so the second press yields B again, never A.  The ArrowDown
behaviour from an (otherwise unreachable) cursor on A does step B → empty as
claimed. -/
theorem c5_recall_navigation_trace :
    (arrowUp ⟨[], "",
        pushHistory "SELECT * FROM products;"
          (pushHistory "SELECT * FROM students;" []), -1⟩).currentLine
      = "SELECT * FROM products;" ∧
    arrowUp (arrowUp ⟨[], "",
        pushHistory "SELECT * FROM products;"
          (pushHistory "SELECT * FROM students;" []), -1⟩)
      = arrowUp ⟨[], "",
        pushHistory "SELECT * FROM products;"
          (pushHistory "SELECT * FROM students;" []), -1⟩ ∧
    (arrowUp (arrowUp ⟨[], "",
        pushHistory "SELECT * FROM products;"
          (pushHistory "SELECT * FROM students;" []), -1⟩)).currentLine
      ≠ "SELECT * FROM students;" ∧
    (arrowDown ⟨[], "SELECT * FROM students;",
        ["SELECT * FROM products;", "SELECT * FROM students;"], 1⟩).currentLine
      = "SELECT * FROM products;" ∧
    (arrowDown (arrowDown ⟨[], "SELECT * FROM students;",
        ["SELECT * FROM products;", "SELECT * FROM students;"], 1⟩)).currentLine
      = "" := by
  decide

/-- C6 (counterexample).  Typo correction is not idempotent: on input
`JIONSET` the first pass only fires the (later) JION→JOIN rule, producing
`JOINSET`, which now contains the (earlier) typo `INSET`; a second pass
fires INSET→INSERT, yielding `JOINSERT` and a nonempty correction list. -/
theorem c6_counterexample :
    fixSQLTypos "JIONSET" = ("JOINSET", ["Sửa lỗi: JION → JOIN"]) ∧
    fixSQLTypos "JOINSET" = ("JOINSERT", ["Sửa lỗi: INSET → INSERT"]) ∧
    fixSQLTypos (fixSQLTypos "JIONSET").1
      ≠ ((fixSQLTypos "JIONSET").1, ([] : List String)) := by
  decide

/-- C6 (amended).  Typo correction is not idempotent in general: a later
rule's replacement can create an earlier rule's typo (see the
counterexample).  What does hold is idempotence on texts the pass leaves
untouched: whenever `fixSQLTypos` reports no corrections, applying it again
returns the same text and an empty correction list. -/
theorem c6_fix_idempotent_on_clean (sql : String)
    (h : (fixSQLTypos sql).2 = []) :
    fixSQLTypos (fixSQLTypos sql).1 = ((fixSQLTypos sql).1, []) := by
  rw [fixSQLTypos_fst_of_no_corrections sql h]
  exact Prod.ext_iff.mpr ⟨fixSQLTypos_fst_of_no_corrections sql h, h⟩

/-- Witness for C6's amended theorem at a concrete clean input. -/
theorem c6_fix_idempotent_on_clean_witness :
    fixSQLTypos (fixSQLTypos "SELECT * FROM students;").1
      = ((fixSQLTypos "SELECT * FROM students;").1, []) :=
  c6_fix_idempotent_on_clean "SELECT * FROM students;" (by decide)

set_option maxHeartbeats 2000000 in
set_option maxRecDepth 8000 in
/-- C2 (counterexample).  While a high-severity statement is awaiting
confirmation, a submitted line that is neither yes/y nor no/n is *not*
interpreted exclusively as an answer and the Dispatcher is *not* bypassed:
submitting `tables` runs the built-in `tables` command (emitting its
informational listing and no re-prompt warning), while the held statement
stays pending. -/
theorem c2_counterexample :
    (executeCommand trivialHelpers trivialExec
      { initialState with pendingDangerousCommand := some "DROP TABLE students;" }
      "tables").emitted = [⟨EntryType.info, tablesText, none⟩] ∧
    (executeCommand trivialHelpers trivialExec
      { initialState with pendingDangerousCommand := some "DROP TABLE students;" }
      "tables").emitted.all (fun e => e.type ≠ EntryType.warning) = true ∧
    (executeCommand trivialHelpers trivialExec
      { initialState with pendingDangerousCommand := some "DROP TABLE students;" }
      "tables").state.pendingDangerousCommand = some "DROP TABLE students;" ∧
    (executeCommand trivialHelpers trivialExec
      { initialState with pendingDangerousCommand := some "DROP TABLE students;" }
      "tables").effects = [] := by
  decide

/-- C4.  Completeness check: any input whose trimmed text ends in `;` is
complete; a non-terminated input that is not a bare special command, not a
`desc`/`describe` prefix, and matches no translation rule is incomplete. -/
theorem c4_isCommandComplete_spec (text : String) :
    (endsWithStr (jsTrim text) ";" = true → isCommandComplete text = true) ∧
    (endsWithStr (jsTrim text) ";" = false →
      specialCommands.any (fun cmd => lowerStr (jsTrim text) = cmd) = false →
      (startsWithStr (lowerStr (jsTrim text)) "desc "
        || startsWithStr (lowerStr (jsTrim text)) "describe ") = false →
      vietnameseToSQL.any (fun r => (r.matchRule (jsTrim text)).isSome) = false →
      isCommandComplete text = false) := by
  unfold isCommandComplete
  dsimp only
  constructor
  · intro hend
    split_ifs <;> simp_all
  · intro h1 h2 h3 h4
    split_ifs <;> simp_all

/-- Witness for C4 at concrete terminated and non-terminated inputs. -/
theorem c4_isCommandComplete_spec_witness :
    isCommandComplete "SELECT * FROM students;" = true ∧
    isCommandComplete "SELECT * FROM students" = false :=
  ⟨(c4_isCommandComplete_spec "SELECT * FROM students;").1 (by decide),
   (c4_isCommandComplete_spec "SELECT * FROM students").2
     (by decide) (by decide) (by decide) (by decide)⟩

/-- Removing the single occurrence of `c` from a duplicate-free list
shortens it by exactly one. -/
theorem filter_ne_length_of_nodup {c : String} :
    ∀ {prev : List String}, prev.Nodup → c ∈ prev →
      (prev.filter fun x => x ≠ c).length + 1 = prev.length := by
  intro prev
  induction prev with
  | nil => intro _ hmem; cases hmem
  | cons a l ih =>
    intro hnd hmem
    rcases List.mem_cons.mp hmem with rfl | hmem
    · have hout : c ∉ l := (List.nodup_cons.mp hnd).1
      have hfix : l.filter (fun x => x ≠ c) = l :=
        List.filter_eq_self.mpr fun x hx => by
          simp only [ne_eq, decide_eq_true_eq]
          exact fun hxc => hout (hxc ▸ hx)
      have hdec : (decide (c ≠ c)) = false := by simp
      simp [List.filter_cons, hdec, hfix]
      exact fun a ha hac => hout (hac ▸ ha)
    · have ha : (a ≠ c) := by
        rintro rfl
        exact (List.nodup_cons.mp hnd).1 hmem
      have hl := ih (List.nodup_cons.mp hnd).2 hmem
      have hdec : (decide (a ≠ c)) = true := by simp [ha]
      simp only [List.filter_cons, hdec, if_true, List.length_cons]
      omega

/-- Function `pushHistory` preserves freedom from duplicates. -/
theorem pushHistory_nodup (c : String) (prev : List String)
    (h : prev.Nodup) : (pushHistory c prev).Nodup := by
  refine (List.take_sublist _ _).nodup ?_
  refine List.nodup_cons.mpr ⟨?_, h.filter _⟩
  intro hmem
  simp [List.mem_filter] at hmem

/-- C8.  Recall-history invariant: the update keeps the list capped at 50,
puts the submitted statement first, preserves freedom from duplicates, and
moves an already-present statement to the front without growing the list;
consequently the history reached from an empty start by any sequence of
submissions is duplicate-free and at most 50 long. -/
theorem c8_recallHistory_invariant (c : String) (prev : List String)
    (cmds : List String) :
    (pushHistory c prev).length ≤ 50 ∧
    (pushHistory c prev).head? = some c ∧
    (prev.Nodup → (pushHistory c prev).Nodup) ∧
    (prev.Nodup → prev.length ≤ 50 → c ∈ prev →
      (pushHistory c prev).length = prev.length) ∧
    (cmds.foldl (fun hist cmd => pushHistory cmd hist) []).Nodup ∧
    (cmds.foldl (fun hist cmd => pushHistory cmd hist) []).length ≤ 50 := by
  have hstep : ∀ (c' : String) (l : List String), (pushHistory c' l).length ≤ 50 := by
    intro c' l
    simp only [pushHistory, List.length_take]
    omega
  have hfold : ∀ (cs : List String) (acc : List String), acc.Nodup → acc.length ≤ 50 →
      ((cs.foldl (fun hist cmd => pushHistory cmd hist) acc).Nodup ∧
       (cs.foldl (fun hist cmd => pushHistory cmd hist) acc).length ≤ 50) := by
    intro cs
    induction cs with
    | nil => intro acc h1 h2; exact ⟨h1, h2⟩
    | cons c' cs' ih =>
      intro acc h1 _
      exact ih _ (pushHistory_nodup c' acc h1) (hstep c' acc)
  refine ⟨hstep c prev, ?_, pushHistory_nodup c prev, ?_,
    hfold cmds [] List.nodup_nil (by simp)⟩
  · show (List.take 50 (c :: _)).head? = some c
    rw [show (50 : Nat) = 49 + 1 from rfl, List.take_succ_cons]
    rfl
  · intro hnd hlen hmem
    have hflt := filter_ne_length_of_nodup hnd hmem
    simp only [pushHistory, List.length_take, List.length_cons]
    omega

/-- Witness for C8 at a concrete two-element history. -/
theorem c8_recallHistory_invariant_witness :
    (pushHistory "b" ["a", "b"]).Nodup ∧
    (pushHistory "b" ["a", "b"]).length = 2 :=
  ⟨(c8_recallHistory_invariant "b" ["a", "b"] []).2.2.1 (by decide),
   (c8_recallHistory_invariant "b" ["a", "b"] []).2.2.2.1
     (by decide) (by decide) (by decide)⟩

/-- When every element fails, `firstSome` fails. -/
theorem firstSome_eq_none {f : α → Option β} :
    ∀ {l : List α}, (l.all fun a => (f a).isNone) = true → firstSome f l = none := by
  intro l
  induction l with
  | nil => intro _; rfl
  | cons a as ih =>
    intro h
    simp only [List.all_cons, Bool.and_eq_true] at h
    have ha : f a = none := Option.isNone_iff_eq_none.mp h.1
    simp [firstSome, ha, ih h.2]

/-- When every element before index `i` fails and the element at `i`
succeeds, `firstSome` returns that success. -/
theorem firstSome_eq_of_first {f : α → Option β} :
    ∀ (l : List α) (i : Nat) (a : α) (b : β),
      l.get? i = some a →
      ((l.take i).all fun x => (f x).isNone) = true →
      f a = some b →
      firstSome f l = some b := by
  intro l
  induction l with
  | nil => intro i a b h; simp at h
  | cons x xs ih =>
    intro i a b hget htake hfa
    cases i with
    | zero =>
      simp only [List.get?_cons_zero, Option.some.injEq] at hget
      subst hget
      simp [firstSome, hfa]
    | succ n =>
      simp only [List.get?_cons_succ] at hget
      simp only [List.take_succ_cons, List.all_cons, Bool.and_eq_true] at htake
      have hx : f x = none := Option.isNone_iff_eq_none.mp htake.1
      simp only [firstSome, hx]
      exact ih n a b hget htake.2 hfa

/-- C7.  Translation substitution: `lấy tất cả từ products` translates to
exactly `SELECT * FROM products;`; in general the first rule (in declared
order) that matches has its captures substituted positionally into its
template with a `;` appended, and when no rule matches the translation
returns nothing, so the statement passes through unchanged. -/
theorem c7_translation_substitution (text : String) :
    convertVietnameseToSQL "lấy tất cả từ products" = some "SELECT * FROM products;" ∧
    (∀ (i : Nat) (r : VNRule) (caps : List String),
      vietnameseToSQL.get? i = some r →
      ((vietnameseToSQL.take i).all fun rj => (rj.matchRule text).isNone) = true →
      r.matchRule text = some caps →
      convertVietnameseToSQL text = some (substTemplate r.template caps ++ ";")) ∧
    ((vietnameseToSQL.all fun r => (r.matchRule text).isNone) = true →
      convertVietnameseToSQL text = none) := by
  refine ⟨by decide, ?_, ?_⟩
  · intro i r caps hget htake hmatch
    unfold convertVietnameseToSQL
    refine firstSome_eq_of_first vietnameseToSQL i r _ hget ?_ ?_
    · rw [List.all_eq_true] at htake ⊢
      intro rj hrj
      have hj := htake rj hrj
      rw [Option.isNone_iff_eq_none] at hj
      simp [hj]
    · simp [hmatch]
  · intro hall
    unfold convertVietnameseToSQL
    refine firstSome_eq_none ?_
    rw [List.all_eq_true] at hall ⊢
    intro rj hrj
    have hj := hall rj hrj
    rw [Option.isNone_iff_eq_none] at hj
    simp [hj]

/-- Witness for C7: the third rule (`xem …`) is the first to match
`xem bảng orders` and its capture is substituted into its template. -/
theorem c7_translation_substitution_witness :
    convertVietnameseToSQL "xem bảng orders"
      = some (substTemplate "SELECT * FROM $1" ["orders"] ++ ";") :=
  (c7_translation_substitution "xem bảng orders").2.1 2
    ⟨fun s => searchPos xemAt s.toList, "SELECT * FROM $1"⟩ ["orders"]
    rfl (by decide) (by decide)

/-- C9.  Table rendering: each column's width is the maximum of the header
length, the longest rendered cell in that column, and the floor 4, computed
per column; a null cell renders as the literal token `NULL` (in the example
table the second data row's second cell is exactly `NULL`); at most 25 rows
are rendered, a "... và N hàng nữa" marker appears exactly when more than
25 rows exist, and the entry stored by `runSQL` keeps the full row list. -/
theorem c9_renderTable_spec :
    (∀ (t : Table) (i : Nat), i < t.columns.length →
      (colWidths t).get? i = some (max (t.columns.getD i "").length
        (max (t.rows.foldl (fun m row => max m (cellStr (row.getD i .null)).length) 0) 4))) ∧
    cellStr Cell.null = "NULL" ∧
    (renderTable ⟨["id", "name"], [[.num 1, .str "Ann"], [.num 2, .null]]⟩).rowLines
      = ["| 1    | Ann  |", "| 2    | NULL |"] ∧
    (∀ t : Table, (renderTable t).rowLines.length = min t.rows.length 25) ∧
    (∀ t : Table, 25 < t.rows.length →
      (renderTable t).more
        = some ("... và " ++ toString (t.rows.length - 25) ++ " hàng nữa")) ∧
    (∀ t : Table, t.rows.length ≤ 25 → (renderTable t).more = none) ∧
    (∀ (h : AIHelpers) (ai learn : Bool) (sql : String) (result : SQLResult),
      result.error = none → 0 < result.columns.length → 0 < result.rows.length →
      (runSQLEntries h ai learn sql result).filter (fun e => e.type = EntryType.result)
        = [⟨EntryType.result,
            toString result.rows.length ++ " row(s) in set (" ++
              toString result.executionTime ++ "ms)",
            some ⟨result.columns, result.rows⟩⟩]) := by
  refine ⟨?_, rfl, by decide, ?_, ?_, ?_, ?_⟩
  · intro t i hi
    simp [colWidths, List.getElem?_map, List.getElem?_range, hi, List.get?_eq_getElem?]
  · intro t
    simp [renderTable, Nat.min_comm]
  · intro t h
    simp only [renderTable]
    rw [if_pos h]
  · intro t h
    simp only [renderTable]
    rw [if_neg (by omega)]
  · intro h ai learn sql result herr hc hr
    unfold runSQLEntries
    rw [herr]
    have hcond : (decide (result.columns.length > 0) && decide (result.rows.length > 0)) = true := by
      simp [hc, hr]
    simp only [List.filter_append, hcond, if_true]
    split_ifs <;> simp [List.filter]

/-- Witness for C9 at a concrete table and result. -/
theorem c9_renderTable_spec_witness :
    (colWidths ⟨["id", "name"], [[.num 1, .str "Ann"], [.num 2, .null]]⟩).get? 1
      = some 4 ∧
    (renderTable ⟨["id", "name"], (List.replicate 30 [Cell.null])⟩).more
      = some "... và 5 hàng nữa" ∧
    (runSQLEntries trivialHelpers false false "SELECT 1;"
        ⟨["c"], [[.num 1]], none, none, 3⟩).filter (fun e => e.type = EntryType.result)
      = [⟨EntryType.result, "1 row(s) in set (3ms)", some ⟨["c"], [[.num 1]]⟩⟩] := by
  refine ⟨?_, ?_, ?_⟩
  · have h9 := (c9_renderTable_spec).1
      ⟨["id", "name"], [[.num 1, .str "Ann"], [.num 2, .null]]⟩ 1 (by decide)
    rw [h9]
    decide
  · have h9 := (c9_renderTable_spec).2.2.2.2.1
      ⟨["id", "name"], (List.replicate 30 [Cell.null])⟩ (by decide)
    rw [h9]
    decide
  · have h9 := (c9_renderTable_spec).2.2.2.2.2.2 trivialHelpers false false
      "SELECT 1;" ⟨["c"], [[.num 1]], none, none, 3⟩ rfl (by decide) (by decide)
    rw [h9]
    decide

/-- C10.  A successful result with at least one column but zero rows makes
the console append exactly one informational `Query OK, N row(s) affected`
entry and no tabular-result entry, so empty result sets never render their
column headers. -/
theorem c10_empty_result_info (h : AIHelpers) (ai learn : Bool)
    (sql : String) (result : SQLResult)
    (herr : result.error = none) (hc : result.columns ≠ [])
    (hr : result.rows = []) :
    (runSQLEntries h ai learn sql result).filter (fun e => e.type = EntryType.info)
      = [⟨EntryType.info,
          "Query OK, " ++ toString (result.affectedRows.getD 0) ++
            " row(s) affected (" ++ toString result.executionTime ++ "ms)", none⟩] ∧
    ∀ e ∈ runSQLEntries h ai learn sql result, e.type ≠ EntryType.result := by
  unfold runSQLEntries
  rw [herr, hr]
  have hcond : (decide (result.columns.length > 0)
      && decide (([] : List (List Cell)).length > 0)) = false := by
    simp
  constructor
  · simp only [List.filter_append, hcond]
    split_ifs <;> simp_all [List.filter]
  · intro e he
    simp only [hcond, List.mem_append] at he
    rcases he with (he | he) | he
    · split_ifs at he <;> simp_all
    · simp_all
    · split_ifs at he <;> simp_all

/-- Witness for C10 at a concrete empty SELECT result. -/
theorem c10_empty_result_info_witness :
    (runSQLEntries trivialHelpers true true "SELECT * FROM students WHERE age > 99;"
        ⟨["id", "name"], [], none, none, 2⟩).filter (fun e => e.type = EntryType.info)
      = [⟨EntryType.info, "Query OK, 0 row(s) affected (2ms)", none⟩] :=
  (c10_empty_result_info trivialHelpers true true
    "SELECT * FROM students WHERE age > 99;"
    ⟨["id", "name"], [], none, none, 2⟩ rfl (by decide) rfl).1

/-! ## Helper lemmas for the dispatcher branch analysis (C2, C3) -/

/-- A successful literal strip means the literal is a prefix of the
case-folded input. -/
theorem stripLit_go_isPrefix :
    ∀ (ps l : List Char), (stripLit.go ps l).isSome = true →
      ps.isPrefixOf (l.map Char.toLower) = true := by
  intro ps
  induction ps with
  | nil => intro l _; simp [List.isPrefixOf]
  | cons p ps ih =>
    intro l h
    cases l with
    | nil => simp [stripLit.go] at h
    | cons c cs =>
      simp only [stripLit.go] at h
      by_cases hc : c.toLower = p
      · rw [if_pos hc] at h
        simp only [List.map_cons, List.isPrefixOf, hc, beq_self_eq_true,
          Bool.true_and]
        exact ih cs h
      · rw [if_neg hc] at h
        simp at h

/-- Restatement of `stripLit_go_isPrefix` for `stripLit`. -/
theorem stripLit_isPrefix {pat : String} {l : List Char}
    (h : (stripLit pat l).isSome = true) :
    pat.toList.isPrefixOf (l.map Char.toLower) = true :=
  stripLit_go_isPrefix pat.toList l h

/-- A `DROP TABLE` match starts (case-folded) with `drop`. -/
theorem matchDropTable_starts {s : String} (h : matchDropTable s = true) :
    "drop".toList.isPrefixOf (s.toList.map Char.toLower) = true := by
  unfold matchDropTable at h
  cases hd : stripLit "drop" s.toList with
  | none => rw [hd] at h; simp at h
  | some l => exact stripLit_isPrefix (by rw [hd]; rfl)

/-- A `DROP DATABASE` match starts (case-folded) with `drop`. -/
theorem matchDropDatabase_starts {s : String} (h : matchDropDatabase s = true) :
    "drop".toList.isPrefixOf (s.toList.map Char.toLower) = true := by
  unfold matchDropDatabase at h
  cases hd : stripLit "drop" s.toList with
  | none => rw [hd] at h; simp at h
  | some l => exact stripLit_isPrefix (by rw [hd]; rfl)

/-- A bare-`DELETE` match starts (case-folded) with `delete`. -/
theorem matchDeleteAll_starts {s : String} (h : matchDeleteAll s = true) :
    "delete".toList.isPrefixOf (s.toList.map Char.toLower) = true := by
  unfold matchDeleteAll at h
  cases hd : stripLit "delete" s.toList with
  | none => rw [hd] at h; simp at h
  | some l => exact stripLit_isPrefix (by rw [hd]; rfl)

/-- A `TRUNCATE` match starts (case-folded) with `truncate`. -/
theorem matchTruncate_starts {s : String} (h : matchTruncate s = true) :
    "truncate".toList.isPrefixOf (s.toList.map Char.toLower) = true := by
  unfold matchTruncate at h
  cases hd : stripLit "truncate" s.toList with
  | none => rw [hd] at h; simp at h
  | some l => exact stripLit_isPrefix (by rw [hd]; rfl)

/-- A high-severity statement starts (trimmed, case-folded) with `drop`,
`delete` or `truncate`. -/
theorem highDanger_starts {s : String} (hd : isHighDanger s = true) :
    "drop".toList.isPrefixOf ((jsTrim s).toList.map Char.toLower) = true ∨
    "delete".toList.isPrefixOf ((jsTrim s).toList.map Char.toLower) = true ∨
    "truncate".toList.isPrefixOf ((jsTrim s).toList.map Char.toLower) = true := by
  by_cases h1 : matchDropTable (jsTrim s) = true
  · exact Or.inl (matchDropTable_starts h1)
  by_cases h2 : matchDropDatabase (jsTrim s) = true
  · exact Or.inl (matchDropDatabase_starts h2)
  by_cases h3 : matchDeleteAll (jsTrim s) = true
  · exact Or.inr (Or.inl (matchDeleteAll_starts h3))
  by_cases h4 : matchTruncate (jsTrim s) = true
  · exact Or.inr (Or.inr (matchTruncate_starts h4))
  exfalso
  by_cases h5 : matchUpdateNoWhere (jsTrim s) = true <;>
    simp [isHighDanger, checkDangerousCommand, dangerousCommands, List.find?,
      h1, h2, h3, h4, h5] at hd

/-- Two incomparable lists cannot both be prefixes of the same list. -/
theorem not_two_prefixes {l p q : List Char}
    (hp : p.isPrefixOf l = true)
    (hpq : p.isPrefixOf q = false) (hqp : q.isPrefixOf p = false) :
    q.isPrefixOf l = false := by
  by_contra hq
  rw [Bool.not_eq_false] at hq
  rw [ List.isPrefixOf_iff_prefix] at hp hq
  rcases List.prefix_or_prefix_of_prefix hp hq with hc | hc
  · rw [← List.isPrefixOf_iff_prefix] at hc
    rw [hc] at hpq
    cases hpq
  · rw [← List.isPrefixOf_iff_prefix] at hc
    rw [hc] at hqp
    cases hqp

/-- The case-folded input cannot equal `t` when it has a prefix `t`
lacks. -/
theorem lowerStr_ne_of_prefix {s : String} {pat : List Char} (t : String)
    (hpre : pat.isPrefixOf (s.toList.map Char.toLower) = true)
    (hno : pat.isPrefixOf t.toList = false) :
    lowerStr s ≠ t := by
  intro he
  have hdata : s.toList.map Char.toLower = t.toList := congrArg String.data he
  rw [hdata] at hpre
  rw [hpre] at hno
  cases hno

/-- The case-folded input cannot start with `pre` when it starts with an
incomparable `pat`. -/
theorem startsWith_lowerStr_eq_false {s : String} {pat : List Char} (pre : String)
    (hpre : pat.isPrefixOf (s.toList.map Char.toLower) = true)
    (h1 : pat.isPrefixOf pre.toList = false)
    (h2 : pre.toList.isPrefixOf pat = false) :
    startsWithStr (lowerStr s) pre = false :=
  not_two_prefixes hpre h1 h2

set_option maxHeartbeats 1600000 in
/-- A high-severity statement takes none of the special-command branches
and is not a yes/no reply: the dispatcher routes it to `processSQL`. -/
theorem executeCommand_highDanger_routes (h : AIHelpers)
    (exec : String → SQLResult) (st : ConsoleState) (fullSQL : String)
    (hd : isHighDanger fullSQL = true) :
    executeCommand h exec st fullSQL =
      processSQL h exec
        { st with commandHistory := pushHistory fullSQL st.commandHistory
                  historyIndex := -1 }
        (jsTrim fullSQL) := by
  rcases highDanger_starts hd with hp | hp | hp <;>
  · have hhelp := lowerStr_ne_of_prefix (s := jsTrim fullSQL) "help" hp (by decide)
    have hclear := lowerStr_ne_of_prefix (s := jsTrim fullSQL) "clear" hp (by decide)
    have hreset := lowerStr_ne_of_prefix (s := jsTrim fullSQL) "reset" hp (by decide)
    have htables := lowerStr_ne_of_prefix (s := jsTrim fullSQL) "tables" hp (by decide)
    have haion := lowerStr_ne_of_prefix (s := jsTrim fullSQL) "ai on" hp (by decide)
    have haioff := lowerStr_ne_of_prefix (s := jsTrim fullSQL) "ai off" hp (by decide)
    have hlearnon := lowerStr_ne_of_prefix (s := jsTrim fullSQL) "learn on" hp (by decide)
    have hlearnoff := lowerStr_ne_of_prefix (s := jsTrim fullSQL) "learn off" hp (by decide)
    have hyes := lowerStr_ne_of_prefix (s := jsTrim fullSQL) "yes" hp (by decide)
    have hy := lowerStr_ne_of_prefix (s := jsTrim fullSQL) "y" hp (by decide)
    have hno := lowerStr_ne_of_prefix (s := jsTrim fullSQL) "no" hp (by decide)
    have hn := lowerStr_ne_of_prefix (s := jsTrim fullSQL) "n" hp (by decide)
    have hdesc := startsWith_lowerStr_eq_false (s := jsTrim fullSQL) "desc " hp
      (by decide) (by decide)
    have hdescribe := startsWith_lowerStr_eq_false (s := jsTrim fullSQL) "describe " hp
      (by decide) (by decide)
    unfold executeCommand
    cases hpd : st.pendingDangerousCommand <;>
      simp [hpd, hhelp, hclear, hreset, htables, haion, haioff, hlearnon,
        hlearnoff, hyes, hy, hno, hn, hdesc, hdescribe]

/-- Entries produced by `runSQL` are error, assistant-note, tabular-result
or informational only — never warnings. -/
theorem runSQLEntries_no_warning (h : AIHelpers) (ai learn : Bool)
    (sql : String) (result : SQLResult) :
    ∀ e ∈ runSQLEntries h ai learn sql result, e.type ≠ EntryType.warning := by
  intro e he
  unfold runSQLEntries at he
  cases herr : result.error with
  | none =>
    rw [herr] at he
    simp only [List.mem_append] at he
    rcases he with (he | he) | he
    · split_ifs at he <;> simp_all
    · split_ifs at he <;> simp_all
    · split_ifs at he <;> simp_all
  | some err =>
    rw [herr] at he
    simp only [List.mem_cons] at he
    rcases he with rfl | he
    · simp
    · split_ifs at he
      · cases hgh : h.getErrorHelp err <;> rw [hgh] at he <;> simp_all
      · simp_all

/-- C3.  With AI assist disabled, a statement matching a high-severity
danger rule is executed immediately: the sole engine call is on the trimmed
statement, no warning entry is emitted, and the pending-confirmation slot
is untouched (no yes/no step is initiated). -/
theorem c3_ai_off_executes_immediately (h : AIHelpers)
    (exec : String → SQLResult) (st : ConsoleState) (fullSQL : String)
    (hai : st.aiEnabled = false) (hd : isHighDanger fullSQL = true) :
    (executeCommand h exec st fullSQL).effects = [Effect.execute (jsTrim fullSQL)] ∧
    (∀ e ∈ (executeCommand h exec st fullSQL).emitted, e.type ≠ EntryType.warning) ∧
    (executeCommand h exec st fullSQL).state.pendingDangerousCommand
      = st.pendingDangerousCommand := by
  have hoff : ∀ st' : ConsoleState, st'.aiEnabled = false → ∀ t,
      processSQL h exec st' t
        = emitStep st'
            (runSQLEntries h st'.aiEnabled st'.learningMode t (exec t))
            [.execute t] := by
    intro st' hai' t
    unfold processSQL
    rw [hai']
    rfl
  rw [executeCommand_highDanger_routes h exec st fullSQL hd,
    hoff { st with commandHistory := pushHistory fullSQL st.commandHistory
                   historyIndex := -1 } hai (jsTrim fullSQL)]
  exact ⟨rfl, runSQLEntries_no_warning _ _ _ _ _, rfl⟩

/-- Witness for C3: `DROP TABLE students;` with AI assist off. -/
theorem c3_ai_off_executes_immediately_witness :
    (executeCommand trivialHelpers trivialExec
        { initialState with aiEnabled := false } "DROP TABLE students;").effects
      = [Effect.execute "DROP TABLE students;"] :=
  (c3_ai_off_executes_immediately trivialHelpers trivialExec
    { initialState with aiEnabled := false } "DROP TABLE students;"
    rfl (by decide)).1

/-- The `desc` branch makes no engine call and leaves the pending slot
untouched. -/
theorem descStep_props (st : ConsoleState) (t : String) :
    (descStep st t).effects = [] ∧
    (descStep st t).state.pendingDangerousCommand
      = st.pendingDangerousCommand := by
  unfold descStep
  dsimp only
  split
  · split
    · exact ⟨rfl, rfl⟩
    · exact ⟨rfl, rfl⟩
  · exact ⟨rfl, rfl⟩

/-- With AI assist on, `processSQL` either suspends (no engine call, a
statement held pending) or makes exactly one engine call on a statement
that is *not* high-severity, leaving the pending slot untouched. -/
theorem processSQL_cases (h : AIHelpers) (exec : String → SQLResult)
    (st : ConsoleState) (t : String) (hai : st.aiEnabled = true) :
    ((processSQL h exec st t).effects = [] ∧
      (processSQL h exec st t).state.pendingDangerousCommand ≠ none) ∨
    (∃ s₂, isHighDanger s₂ = false ∧
      (processSQL h exec st t).effects = [Effect.execute s₂] ∧
      (processSQL h exec st t).state.pendingDangerousCommand
        = st.pendingDangerousCommand) := by
  unfold processSQL
  rw [hai]
  split_ifs with hcond
  · generalize (match convertVietnameseToSQL t with
      | some conv =>
        (conv, [(⟨.ai, "🔄 Chuyển đổi tiếng Việt → SQL:\n   " ++ conv, none⟩ : Entry)])
      | none => (t, [])) = p₁
    obtain ⟨sql₁, entries₁⟩ := p₁
    dsimp only
    generalize (if (fixSQLTypos sql₁).2.length > 0 then
        ((fixSQLTypos sql₁).1,
         [(⟨.ai,
            "✏️ Sửa lỗi:\n" ++
              String.intercalate "\n" ((fixSQLTypos sql₁).2.map fun c => "   • " ++ c) ++
              "\n   → " ++ (fixSQLTypos sql₁).1, none⟩ : Entry)])
      else (sql₁, [])) = p₂
    obtain ⟨sql₂, entries₂⟩ := p₂
    dsimp only
    rcases hC : checkDangerousCommand sql₂ with _ | dang <;> dsimp only
    · refine Or.inr ⟨sql₂, ?_, rfl, rfl⟩
      simp [isHighDanger, hC]
    · by_cases hlev : dang.level = DangerLevel.high
      · rw [if_pos hlev]
        exact Or.inl ⟨rfl, by simp [emitStep]⟩
      · rw [if_neg hlev]
        refine Or.inr ⟨sql₂, ?_, rfl, rfl⟩
        simp [isHighDanger, hC, hlev]
  · exact absurd rfl hcond

set_option maxHeartbeats 2000000 in
/-- C2 (amended).  While a statement is awaiting confirmation (with AI
assist on), a submitted `yes`/`y` executes exactly the held statement and
clears the slot, and a `no`/`n` discards it with a cancellation note and no
engine call; any other line is *not* treated as an answer: it is handled by
the ordinary dispatcher/pipeline (special commands run, other statements
are transformed and possibly executed), the held statement itself is never
executed by such a reply, and the machine stays in a pending state (the
original or a newly flagged statement; no re-prompt is emitted). -/
theorem c2_awaiting_confirmation (h : AIHelpers) (exec : String → SQLResult)
    (st : ConsoleState) (d fullSQL : String)
    (hai : st.aiEnabled = true)
    (hp : st.pendingDangerousCommand = some d)
    (hd : isHighDanger d = true) :
    ((lowerStr (jsTrim fullSQL) = "yes" ∨ lowerStr (jsTrim fullSQL) = "y") →
      (executeCommand h exec st fullSQL).effects = [Effect.execute d] ∧
      (executeCommand h exec st fullSQL).state.pendingDangerousCommand = none) ∧
    ((lowerStr (jsTrim fullSQL) = "no" ∨ lowerStr (jsTrim fullSQL) = "n") →
      (executeCommand h exec st fullSQL).effects = [] ∧
      (executeCommand h exec st fullSQL).state.pendingDangerousCommand = none ∧
      (executeCommand h exec st fullSQL).emitted
        = [⟨EntryType.info, "❌ Đã hủy lệnh.", none⟩]) ∧
    (lowerStr (jsTrim fullSQL) ≠ "yes" → lowerStr (jsTrim fullSQL) ≠ "y" →
      Effect.execute d ∉ (executeCommand h exec st fullSQL).effects ∧
      (lowerStr (jsTrim fullSQL) ≠ "no" → lowerStr (jsTrim fullSQL) ≠ "n" →
        (executeCommand h exec st fullSQL).state.pendingDangerousCommand
          ≠ none)) := by
  refine ⟨?_, ?_, ?_⟩
  · intro hcase
    unfold executeCommand
    dsimp only
    rw [hp]
    rcases hcase with he | he <;> rw [he] <;> exact ⟨rfl, rfl⟩
  · intro hcase
    unfold executeCommand
    dsimp only
    rw [hp]
    rcases hcase with he | he <;> rw [he] <;> exact ⟨rfl, rfl, rfl⟩
  · intro hyes hy
    unfold executeCommand
    dsimp only
    by_cases h1 : lowerStr (jsTrim fullSQL) = "help"
    · rw [if_pos h1]
      exact ⟨by simp [emitStep], fun _ _ => by simp [emitStep, hp]⟩
    rw [if_neg h1]
    by_cases h2 : lowerStr (jsTrim fullSQL) = "clear"
    · rw [if_pos h2]
      exact ⟨by simp [emitStep], fun _ _ => by simp [emitStep, hp]⟩
    rw [if_neg h2]
    by_cases h3 : lowerStr (jsTrim fullSQL) = "reset"
    · rw [if_pos h3]
      exact ⟨by simp [emitStep], fun _ _ => by simp [emitStep, hp]⟩
    rw [if_neg h3]
    by_cases h4 : lowerStr (jsTrim fullSQL) = "tables"
    · rw [if_pos h4]
      exact ⟨by simp [emitStep], fun _ _ => by simp [emitStep, hp]⟩
    rw [if_neg h4]
    by_cases h5 : (startsWithStr (lowerStr (jsTrim fullSQL)) "desc "
        || startsWithStr (lowerStr (jsTrim fullSQL)) "describe ") = true
    · rw [if_pos h5]
      have hdp := descStep_props
        { st with
          commandHistory := pushHistory fullSQL st.commandHistory,
          historyIndex := -1 } (jsTrim fullSQL)
      refine ⟨?_, fun _ _ => ?_⟩
      · rw [hdp.1]
        simp
      · rw [hdp.2]
        simp [hp]
    rw [if_neg h5]
    by_cases h6 : lowerStr (jsTrim fullSQL) = "ai on"
    · rw [if_pos h6]
      exact ⟨by simp [emitStep], fun _ _ => by simp [emitStep, hp]⟩
    rw [if_neg h6]
    by_cases h7 : lowerStr (jsTrim fullSQL) = "ai off"
    · rw [if_pos h7]
      exact ⟨by simp [emitStep], fun _ _ => by simp [emitStep, hp]⟩
    rw [if_neg h7]
    by_cases h8 : lowerStr (jsTrim fullSQL) = "learn on"
    · rw [if_pos h8]
      exact ⟨by simp [emitStep], fun _ _ => by simp [emitStep, hp]⟩
    rw [if_neg h8]
    by_cases h9 : lowerStr (jsTrim fullSQL) = "learn off"
    · rw [if_pos h9]
      exact ⟨by simp [emitStep], fun _ _ => by simp [emitStep, hp]⟩
    rw [if_neg h9]
    rw [hp]
    dsimp only
    rw [if_neg (by simp [hyes, hy])]
    by_cases hb : (decide (lowerStr (jsTrim fullSQL) = "no")
        || decide (lowerStr (jsTrim fullSQL) = "n")) = true
    · rw [if_pos hb]
      refine ⟨by simp [emitStep], fun hno hn => ?_⟩
      simp only [Bool.or_eq_true, decide_eq_true_eq] at hb
      rcases hb with hb | hb
      · exact absurd hb hno
      · exact absurd hb hn
    · rw [if_neg hb]
      rcases processSQL_cases h exec
          { st with
            commandHistory := pushHistory fullSQL st.commandHistory,
            historyIndex := -1,
            pendingDangerousCommand := some d } (jsTrim fullSQL) hai with
        ⟨he, hpend⟩ | ⟨s₂, hs₂, he, hpend⟩
      · rw [he]
        exact ⟨by simp, fun _ _ => hpend⟩
      · rw [he]
        refine ⟨?_, fun _ _ => ?_⟩
        · intro hmem
          simp only [List.mem_singleton, Effect.execute.injEq] at hmem
          rw [hmem] at hd
          rw [hd] at hs₂
          cases hs₂
        · rw [hpend]
          simp

/-- Witness for C2's amended theorem: a concrete pending `DROP` confirmed
with `yes`. -/
theorem c2_awaiting_confirmation_witness :
    (executeCommand trivialHelpers trivialExec
        { initialState with pendingDangerousCommand := some "DROP TABLE students;" }
        "yes").effects = [Effect.execute "DROP TABLE students;"] :=
  ((c2_awaiting_confirmation trivialHelpers trivialExec
      { initialState with pendingDangerousCommand := some "DROP TABLE students;" }
      "DROP TABLE students;" "yes" rfl rfl (by decide)).1
    (Or.inl (by decide))).1

end AICommandLine
